import Mathlib

/-!
Verification of the IPsec test-orchestration scripts.

Shallow embedding of the pure decision logic of the repository:
outcome classification and SPI parsing of firmware_upgrade_session.py,
the bounded polling loop monitor_recovery, the resource-exhaustion loop of
sa_resource_exhaustion_linux.py together with its tunnel-mode guard and
flush_all, the xfrm SA/policy configuration and rekey step of IPSecTesting.py,
and the tc shaping state manipulated by apply_targeted_netem / clear_tc and
the teardown (finally) blocks.
-/

namespace Spec2Proof

/- ================= firmware_upgrade_session.py ================= -/

/-- Outcome values written to the CSV by firmware_upgrade_session.main
("FAIL", "PASS-PERSISTENT", "PASS-GRACEFUL"). -/
inductive Outcome where
  | fail
  | passPersistent
  | passGraceful
deriving DecidableEq, Repr

/-- The outcome determination of firmware_upgrade_session.main (lines 205-215):
`if not ok: FAIL elif post_spi == pre_spi and post_spi != "unknown":
PASS-PERSISTENT else: PASS-GRACEFUL`. -/
def classify (ok : Bool) (preSpi postSpi : String) : Outcome :=
  if ok = false then Outcome.fail
  else if postSpi = preSpi ∧ postSpi ≠ "unknown" then Outcome.passPersistent
  else Outcome.passGraceful

/-- Python str.split() with no argument: split on whitespace runs, dropping
empty pieces. -/
def split_words (line : String) : List String :=
  (line.split (fun c => c == ' ' || c == '\t')).filter (fun w => w ≠ "")

/-- Inner loop of parse_first_spi: scan the word list for a token "spi" that
is not the last token, and return the following token. -/
def firstSpiToken : List String → Option String
  | [] => none
  | p :: rest => if p = "spi" ∧ rest ≠ [] then rest.head? else firstSpiToken rest

/-- Substring containment over character lists (the Python `"spi" in line`
guard). -/
def hasSubstr (pat : List Char) : List Char → Bool
  | [] => pat.isEmpty
  | c :: rest => pat.isPrefixOf (c :: rest) || hasSubstr pat rest

/-- firmware_upgrade_session.parse_first_spi: first line containing "spi" is
scanned for a token pair ("spi", x); returns x, otherwise continues to the
next line; None when nothing is found.  The state text is given as its list
of lines. -/
def parse_first_spi : List String → Option String
  | [] => none
  | line :: rest =>
    if hasSubstr "spi".data line.data then
      match firstSpiToken (split_words line) with
      | some spi => some spi
      | none => parse_first_spi rest
    else parse_first_spi rest

/-- Lines 202-215 of firmware_upgrade_session.main: both snapshots are parsed
with parse_first_spi, defaulting to "unknown", then classified. -/
def run_classification (ok : Bool) (preState postState : List String) : Outcome :=
  let preSpi := (parse_first_spi preState).getD "unknown"
  let postSpi := (parse_first_spi postState).getD "unknown"
  classify ok preSpi postSpi

/-- The polling loop of firmware_upgrade_session.monitor_recovery, with time
idealized: poll k happens at elapsed time k * interval; the loop runs while
elapsed < timeout; on a true poll it returns (True, elapsed); otherwise
(False, timeout).  Structured with explicit fuel (the loop terminates because
elapsed time grows by interval each iteration). -/
def monitorRecoveryAux (timeout interval : ℚ) (poll : Nat → Bool) :
    Nat → Nat → Bool × ℚ
  | 0, _ => (false, timeout)
  | fuel + 1, k =>
    if (k : ℚ) * interval < timeout then
      if poll k then (true, (k : ℚ) * interval)
      else monitorRecoveryAux timeout interval poll fuel (k + 1)
    else (false, timeout)

/-- firmware_upgrade_session.monitor_recovery(timeout_s, poll_fn, interval).
The fuel ceil(timeout/interval)+1 is enough for the time check to stop the
loop. -/
def monitor_recovery (timeout : ℚ) (poll : Nat → Bool) (interval : ℚ) : Bool × ℚ :=
  monitorRecoveryAux timeout interval poll (Nat.ceil (timeout / interval) + 1) 0

/- ================= sa_resource_exhaustion_linux.py ================= -/

/-- The iteration bound of sa_resource_exhaustion_linux.exhaust:
`range(args.max_pairs if not args.until_fail else (args.max_pairs or
1_000_000_000))`. -/
def exhaustBound (untilFail : Bool) (maxPairs : Nat) : Nat :=
  if untilFail = false then maxPairs
  else if maxPairs = 0 then 1000000000 else maxPairs

/-- Loop body of sa_resource_exhaustion_linux.exhaust: try_add_pair(i) either
succeeds (created += 1, then break when `not until_fail and created >=
max_pairs`) or raises (err_msg is recorded and the loop breaks).  The fuel is
the number of remaining loop indices. -/
def exhaustAux (tryAdd : Nat → Except String Unit) (untilFail : Bool)
    (maxPairs : Nat) : Nat → Nat → Nat → Nat × String
  | 0, _, created => (created, "")
  | fuel + 1, i, created =>
    match tryAdd i with
    | Except.error e => (created, e)
    | Except.ok _ =>
      if untilFail = false ∧ maxPairs ≤ created + 1 then (created + 1, "")
      else exhaustAux tryAdd untilFail maxPairs fuel (i + 1) (created + 1)

/-- sa_resource_exhaustion_linux.exhaust(args): returns (pairs_created,
last_error).  try_add_pair is abstracted as a function from the pair index to
success or a diagnostic. -/
def exhaust (tryAdd : Nat → Except String Unit) (untilFail : Bool)
    (maxPairs : Nat) : Nat × String :=
  exhaustAux tryAdd untilFail maxPairs (exhaustBound untilFail maxPairs) 0 0

/-- Result of sa_resource_exhaustion_linux.main: either the early sys.exit of
the tunnel-mode guard, or the exhaust result. -/
inductive ExhaustMainResult where
  | configError (msg : String)
  | completed (created : Nat) (lastError : String)
deriving DecidableEq, Repr

/-- sa_resource_exhaustion_linux.main (lines 252-260): the guard
`if args.mode == "tunnel" and args.with_policy: if not (args.local_subnet and
args.remote_subnet): sys.exit(...)` runs before exhaust is called. -/
def exhaust_main (mode : String) (withPolicy : Bool)
    (localSubnet remoteSubnet : Option String)
    (tryAdd : Nat → Except String Unit) (untilFail : Bool) (maxPairs : Nat) :
    ExhaustMainResult :=
  if mode = "tunnel" ∧ withPolicy = true then
    if ¬ (localSubnet.isSome ∧ remoteSubnet.isSome) then
      ExhaustMainResult.configError
        "--local-subnet and --remote-subnet required for tunnel mode with policies."
    else
      let r := exhaust tryAdd untilFail maxPairs
      ExhaustMainResult.completed r.1 r.2
  else
    let r := exhaust tryAdd untilFail maxPairs
    ExhaustMainResult.completed r.1 r.2

/-- subprocess.run via the run() wrappers: raises CalledProcessError exactly
when the command fails and check is true. -/
def run_sub (check : Bool) (cmdFails : Bool) : Except String Unit :=
  if cmdFails = true ∧ check = true then Except.error "CalledProcessError"
  else Except.ok ()

/-- sa_resource_exhaustion_linux.flush_all: two run() calls with the default
check=True; an exception from the first skips the second and propagates. -/
def flush_all (stateFails policyFails : Bool) : Except String Unit :=
  match run_sub true stateFails with
  | Except.error e => Except.error e
  | Except.ok _ => run_sub true policyFails

/-- IPSecTesting.ip_xfrm_flush: two run_cmd() calls with check=False, so a
failing flush never raises. -/
def ip_xfrm_flush (stateFails policyFails : Bool) : Except String Unit :=
  match run_sub false stateFails with
  | Except.error e => Except.error e
  | Except.ok _ => run_sub false policyFails

/- ================= tc shaping state (IPSecTesting.py / error_edge_cases.py) ================= -/

/-- Which header field a u32 filter matches on. -/
inductive MatchKey where
  | dst
  | src
deriving DecidableEq, Repr

/-- One `tc filter add ... u32 match ip <dst|src> <ip> flowid <classid>`. -/
structure TcFilter where
  key : MatchKey
  ip : String
  flowid : String
deriving DecidableEq, Repr

/-- Parameters of a `tc ... netem loss L% delay Dms reorder R%` qdisc. -/
structure NetemParams where
  lossPct : ℚ
  delayMs : ℚ
  reorderPct : ℚ
deriving DecidableEq, Repr

/-- Shaping state of one interface: optional root qdisc, optional child netem
qdisc (parent classid and parameters), and the installed filters. -/
structure TcState where
  rootQdisc : Option String
  childNetem : Option (String × NetemParams)
  filters : List TcFilter
deriving DecidableEq, Repr

/-- An interface with no shaping configuration. -/
def TcState.emptyTc : TcState := ⟨none, none, []⟩

/-- `tc qdisc del dev <iface> root`: removes the root qdisc and everything
under it; when no root qdisc exists the command fails and the state is
unchanged. -/
def tc_qdisc_del_root (s : TcState) : TcState :=
  match s.rootQdisc with
  | some _ => TcState.emptyTc
  | none => s

/-- IPSecTesting.clear_tc / error_edge_cases.tc_clear: the root delete is run
with check=False, so it never raises, even when nothing is applied. -/
def clear_tc (s : TcState) : Except String TcState :=
  Except.ok (tc_qdisc_del_root s)

/-- `tc qdisc add dev <iface> root handle 1: prio`. -/
def tc_qdisc_add_root_prio (s : TcState) : TcState :=
  { s with rootQdisc := some "prio" }

/-- `tc qdisc add dev <iface> parent <classid> handle 30: netem ...`. -/
def tc_qdisc_add_netem (parent : String) (p : NetemParams) (s : TcState) : TcState :=
  { s with childNetem := some (parent, p) }

/-- `tc filter add ...`: appends one filter. -/
def tc_filter_add (f : TcFilter) (s : TcState) : TcState :=
  { s with filters := s.filters ++ [f] }

/-- IPSecTesting.apply_targeted_netem / error_edge_cases.tc_targeted_netem:
delete the existing root (check=False), add a prio root, attach netem at
1:3, then add the dst-match and src-match filters classifying into 1:3. -/
def apply_targeted_netem (target : String) (lossPct delayMs reorderPct : ℚ)
    (s : TcState) : TcState :=
  tc_filter_add ⟨MatchKey.src, target, "1:3"⟩
    (tc_filter_add ⟨MatchKey.dst, target, "1:3"⟩
      (tc_qdisc_add_netem "1:3" ⟨lossPct, delayMs, reorderPct⟩
        (tc_qdisc_add_root_prio (tc_qdisc_del_root s))))

/-- Whether one filter matches a packet with the given source and destination
addresses. -/
def filterMatches (f : TcFilter) (psrc pdst : String) : Bool :=
  match f.key with
  | MatchKey.dst => pdst == f.ip
  | MatchKey.src => psrc == f.ip

/-- A packet is degraded when a root qdisc and a child netem qdisc are
installed and some filter classifies the packet into the netem class. -/
def packetDegraded (s : TcState) (psrc pdst : String) : Bool :=
  match s.rootQdisc, s.childNetem with
  | some _, some (parent, _) =>
      s.filters.any (fun f => f.flowid == parent && filterMatches f psrc pdst)
  | _, _ => false

/- ================= teardown blocks ================= -/

/-- Externally visible kernel/interface state touched by a scenario: xfrm
states and policies plus the tc shaping state of the interface used. -/
structure NetState where
  saStates : List Nat
  saPolicies : List Nat
  tc : TcState
deriving DecidableEq, Repr

/-- Effect of IPSecTesting.ip_xfrm_flush on the xfrm tables: both flushed. -/
def ip_xfrm_flush_st (s : NetState) : NetState :=
  { s with saStates := [], saPolicies := [] }

/-- Effect of clear_tc / tc_clear on the interface shaping state. -/
def clear_tc_st (s : NetState) : NetState :=
  { s with tc := tc_qdisc_del_root s.tc }

/-- The finally block of IPSecTesting.do_tests (lines 424-431): flush xfrm
state and policies only when strongSwan is not in use, then clear tc. -/
def do_tests_finally (swanTool : Bool) (s : NetState) : NetState :=
  clear_tc_st (if swanTool then s else ip_xfrm_flush_st s)

/-- The finally block of error_edge_cases.main (lines 263-266): tc_clear and
stop_tcpdump only; the xfrm tables are not flushed. -/
def error_edge_finally (s : NetState) : NetState :=
  clear_tc_st s

/- ================= SA configuration and rekey (IPSecTesting.py) ================= -/

/-- One xfrm state added by `ip xfrm state add ...`; the reqid token is
appended only when the reqid value is truthy (nonzero). -/
structure XfrmSA where
  src : String
  dst : String
  spi : Nat
  mode : String
  key : String
  reqid : Option Nat
deriving DecidableEq, Repr

/-- One xfrm policy added by `ip xfrm policy add ... tmpl ... mode <mode>
reqid <reqid>`. -/
structure XfrmPolicy where
  src : String
  dst : String
  dir : String
  tmplMode : String
  reqid : Nat
deriving DecidableEq, Repr

/-- IPSecTesting.configure_ipxfrm_sa_policy: adds one state (with the reqid
attached only when nonzero) and an out- and an in-policy, both carrying the
reqid. -/
def configure_ipxfrm_sa_policy (localIp remoteIp mode : String) (spi : Nat)
    (encKey : String) (reqid : Nat) : XfrmSA × XfrmPolicy × XfrmPolicy :=
  (⟨localIp, remoteIp, spi, mode, encKey, if reqid ≠ 0 then some reqid else none⟩,
   ⟨localIp, remoteIp, "out", mode, reqid⟩,
   ⟨remoteIp, localIp, "in", mode, reqid⟩)

/-- Bring-up in IPSecTesting.do_tests (lines 306/312): the SA is configured
with reqid = spi & 0xffff. -/
def bring_up_sa (localIp remoteIp mode : String) (spi : Nat) (key : String) :
    XfrmSA × XfrmPolicy × XfrmPolicy :=
  configure_ipxfrm_sa_policy localIp remoteIp mode spi key (spi % 65536)

/-- The observable effect of the rekey step in IPSecTesting.do_tests. -/
structure RekeyStep where
  deletedSpi : Nat
  newState : XfrmSA
  newPolicyOut : XfrmPolicy
  newPolicyIn : XfrmPolicy
deriving DecidableEq, Repr

/-- Rekey in IPSecTesting.do_tests (lines 352-366): delete the SA by its SPI,
generate fresh key material, and configure the successor SA with new_spi =
spi + 1 and reqid = new_spi & 0xffff. -/
def rekey_sa (localIp remoteIp mode : String) (spi : Nat) (newKey : String) :
    RekeyStep :=
  let cfg := configure_ipxfrm_sa_policy localIp remoteIp mode (spi + 1) newKey
    ((spi + 1) % 65536)
  ⟨spi, cfg.1, cfg.2.1, cfg.2.2⟩

/- ================= concrete instances used by witnesses ================= -/

/-- A pair-creation function that fails at index 2 with diagnostic "boom". -/
def tryAddBoom : Nat → Except String Unit :=
  fun i => if i = 2 then Except.error "boom" else Except.ok ()

/-- A shaping state with a stale root qdisc and a stale filter. -/
def tcS0 : TcState := ⟨some "prio", none, [⟨MatchKey.dst, "1.2.3.4", "1:3"⟩]⟩

/-- A network state with a live SA pair, policies, and an active root qdisc. -/
def netS0 : NetState := ⟨[4097, 4098], [4097], ⟨some "prio", none, []⟩⟩

/- ================= theorems ================= -/

/-- C1 counterexample: a run that recovered (ok = true) but whose two
snapshots contain no SPI line at all (both parse to the "unknown"
placeholder) is classified PASS-GRACEFUL although the post-fault snapshot
equals the pre-fault snapshot, refuting "outcome is PassPersistent iff the
post-fault identifier snapshot equals the pre-fault snapshot". -/
theorem classification_ce :
    run_classification true [] [] = Outcome.passGraceful
    ∧ ¬ (run_classification true [] [] = Outcome.passPersistent ↔
          ([] : List String) = ([] : List String)) := by
  decide

/-- C1 amended: for every run reaching classification, the outcome is
PassPersistent iff the run recovered and the parsed post-fault SPI equals the
parsed pre-fault SPI and is not the "unknown" placeholder; the outcome is
Fail iff the recovery predicate never became true within the timeout. -/
theorem classification_amended (ok : Bool) (preSpi postSpi : String) :
    (classify ok preSpi postSpi = Outcome.passPersistent ↔
      (ok = true ∧ postSpi = preSpi ∧ postSpi ≠ "unknown"))
    ∧ (classify ok preSpi postSpi = Outcome.fail ↔ ok = false) := by
  unfold classify
  split_ifs with h1 h2
  · simp_all
  · rcases h2 with ⟨hpp, hun⟩
    subst hpp
    simp_all
  · simp_all

/-- Helper for C2: when the first true poll is k0 and it happens strictly
before the timeout, the loop returns (true, k0 * interval), for any
sufficient fuel. -/
theorem monitorRecoveryAux_success (timeout interval : ℚ) (poll : Nat → Bool)
    (hpos : 0 < interval) :
    ∀ (fuel k k0 : Nat), k ≤ k0 → k0 < k + fuel → (k0 : ℚ) * interval < timeout →
      poll k0 = true → (∀ j, k ≤ j → j < k0 → poll j = false) →
      monitorRecoveryAux timeout interval poll fuel k = (true, (k0 : ℚ) * interval) := by
  intro fuel
  induction fuel with
  | zero => intro k k0 hk hlt _ _ _; omega
  | succ n ih =>
    intro k k0 hk hlt hto hpoll hfalse
    have hkt : (k : ℚ) * interval < timeout := by
      have hle : (k : ℚ) * interval ≤ (k0 : ℚ) * interval := by
        have hc : (k : ℚ) ≤ (k0 : ℚ) := by exact_mod_cast hk
        exact mul_le_mul_of_nonneg_right hc (le_of_lt hpos)
      linarith
    rcases Nat.eq_or_lt_of_le hk with heq | hklt
    · subst heq
      simp only [monitorRecoveryAux]
      rw [if_pos hkt, hpoll]
      simp
    · have hpk : poll k = false := hfalse k le_rfl hklt
      simp only [monitorRecoveryAux]
      rw [if_pos hkt, hpk]
      simp only [Bool.false_eq_true, if_false]
      exact ih (k + 1) k0 hklt (by omega) hto hpoll
        (fun j hj1 hj2 => hfalse j (by omega) hj2)

/-- Helper for C2: when every poll scheduled before the timeout is false, the
loop returns (false, timeout). -/
theorem monitorRecoveryAux_failure (timeout interval : ℚ) (poll : Nat → Bool) :
    ∀ (fuel k : Nat), (∀ j, k ≤ j → (j : ℚ) * interval < timeout → poll j = false) →
      monitorRecoveryAux timeout interval poll fuel k = (false, timeout) := by
  intro fuel
  induction fuel with
  | zero => intro k _; rfl
  | succ n ih =>
    intro k h
    simp only [monitorRecoveryAux]
    by_cases hkt : (k : ℚ) * interval < timeout
    · rw [if_pos hkt, h k le_rfl hkt]
      simp only [Bool.false_eq_true, if_false]
      exact ih (k + 1) (fun j hj hjt => h j (by omega) hjt)
    · rw [if_neg hkt]

/-- C2: for every predicate, timeout and positive poll interval,
monitor_recovery evaluates the predicate at the poll-interval cadence and
returns (true, time of the first true evaluation) when the predicate becomes
true before the timeout, and (false, timeout) otherwise. -/
theorem monitor_recovery_spec (timeout interval : ℚ) (poll : Nat → Bool)
    (hpos : 0 < interval) :
    (∀ (k0 : Nat), poll k0 = true → (∀ j, j < k0 → poll j = false) →
        (k0 : ℚ) * interval < timeout →
        monitor_recovery timeout poll interval = (true, (k0 : ℚ) * interval))
    ∧ ((∀ (j : Nat), (j : ℚ) * interval < timeout → poll j = false) →
        monitor_recovery timeout poll interval = (false, timeout)) := by
  constructor
  · intro k0 hpoll hfirst hto
    have hceil : k0 < Nat.ceil (timeout / interval) + 1 := by
      have h1 : (k0 : ℚ) < timeout / interval := (lt_div_iff₀ hpos).mpr hto
      have h2 : k0 < Nat.ceil (timeout / interval) := Nat.lt_ceil.mpr h1
      omega
    exact monitorRecoveryAux_success timeout interval poll hpos _ 0 k0
      (Nat.zero_le _) (by omega) hto hpoll (fun j _ hj => hfirst j hj)
  · intro h
    exact monitorRecoveryAux_failure timeout interval poll _ 0
      (fun j _ hjt => h j hjt)

/-- C2 witness: a predicate that becomes true at the 4th poll with a
1-second interval and a 10-second timeout yields succeeded = true with
elapsed = 4 seconds. -/
theorem monitor_recovery_spec_witness :
    monitor_recovery 10 (fun k => decide (4 ≤ k)) 1 = (true, 4) := by
  have h := (monitor_recovery_spec 10 1 (fun k => decide (4 ≤ k)) (by norm_num)).1
    4 (by decide)
    (fun j hj => by simp only [decide_eq_false_iff_not]; omega)
    (by norm_num)
  simpa using h

/-- C3 counterexample: the final teardown of error_edge_cases.main clears the
interface shaping but leaves the xfrm association and policy tables
untouched, so after teardown on a state with a live SA pair the association
snapshot is not empty. -/
theorem teardown_ce :
    ¬ ((error_edge_finally netS0).saStates = []
        ∧ (error_edge_finally netS0).saPolicies = []
        ∧ (error_edge_finally netS0).tc.rootQdisc = none) := by
  decide

/-- C3 amended: on every exit path, teardown clears the impairment
configuration (the interface is left with no root qdisc and no packet is
degraded); the flush of all associations and policies additionally holds on
every exit path of IPSecTesting.do_tests when strongSwan is not in use, but
the final teardown of error_edge_cases.main does not flush the association
tables. -/
theorem teardown_amended (s : NetState) (swanTool : Bool) :
    (do_tests_finally false s).saStates = []
    ∧ (do_tests_finally false s).saPolicies = []
    ∧ (do_tests_finally swanTool s).tc.rootQdisc = none
    ∧ (error_edge_finally s).tc.rootQdisc = none
    ∧ (∀ psrc pdst, packetDegraded (error_edge_finally s).tc psrc pdst = false) := by
  rcases s with ⟨st, po, ⟨root, ch, fl⟩⟩
  cases root <;> cases ch <;> cases swanTool <;>
    simp [do_tests_finally, error_edge_finally, clear_tc_st, ip_xfrm_flush_st,
      tc_qdisc_del_root, TcState.emptyTc, packetDegraded]

/-- Helper for C4: the loop can create at most one pair per remaining loop
index. -/
theorem exhaustAux_created_le (tryAdd : Nat → Except String Unit) (u : Bool)
    (m : Nat) :
    ∀ fuel i c, (exhaustAux tryAdd u m fuel i c).1 ≤ c + fuel := by
  intro fuel
  induction fuel with
  | zero => intro i c; simp [exhaustAux]
  | succ n ih =>
    intro i c
    rcases htry : tryAdd i with e | v
    · simp [exhaustAux, htry]
    · simp only [exhaustAux, htry]
      by_cases hc : u = false ∧ m ≤ c + 1
      · rw [if_pos hc]
        show c + 1 ≤ c + (n + 1)
        omega
      · rw [if_neg hc]
        have h := ih (i + 1) (c + 1)
        omega

/-- Helper for C4: with until_fail set, when the first failing index f lies
within the remaining fuel, the loop returns the count of pairs created
strictly before f together with f's diagnostic. -/
theorem exhaustAux_until_fail (tryAdd : Nat → Except String Unit) (m f : Nat)
    (e : String) (hf : tryAdd f = Except.error e)
    (hok : ∀ j, j < f → tryAdd j = Except.ok ()) :
    ∀ fuel i c, i ≤ f → f < i + fuel →
      exhaustAux tryAdd true m fuel i c = (c + (f - i), e) := by
  intro fuel
  induction fuel with
  | zero => intro i c hi hlt; omega
  | succ n ih =>
    intro i c hi hlt
    rcases Nat.eq_or_lt_of_le hi with heq | hilt
    · subst heq
      simp [exhaustAux, hf]
    · have hoki : tryAdd i = Except.ok () := hok i hilt
      simp only [exhaustAux, hoki]
      rw [if_neg (by simp)]
      rw [ih (i + 1) (c + 1) (by omega) (by omega)]
      have harith : c + 1 + (f - (i + 1)) = c + (f - i) := by omega
      rw [harith]

/-- C4: with until_fail disabled, exhaust creates at most maxPairs pairs;
with until_fail enabled, when the first creation failure occurs at index f
within the loop bound, exhaust halts there and returns createdCount = f (the
pairs created strictly before the failure) with the failure's diagnostic as
lastError. -/
theorem exhaust_spec (tryAdd : Nat → Except String Unit) (maxPairs : Nat) :
    (exhaust tryAdd false maxPairs).1 ≤ maxPairs
    ∧ (∀ f e, f < exhaustBound true maxPairs → tryAdd f = Except.error e →
        (∀ j, j < f → tryAdd j = Except.ok ()) →
        exhaust tryAdd true maxPairs = (f, e)) := by
  constructor
  · have h := exhaustAux_created_le tryAdd false maxPairs
      (exhaustBound false maxPairs) 0 0
    simpa [exhaust, exhaustBound] using h
  · intro f e hfb herr hok
    have h := exhaustAux_until_fail tryAdd maxPairs f e herr hok
      (exhaustBound true maxPairs) 0 0 (Nat.zero_le _) (by omega)
    simpa [exhaust] using h

/-- C4 witness: with a creation function that fails at index 2, exhaust with
until_fail returns (2, "boom"), and with a cap of 5 it creates at most 5
pairs. -/
theorem exhaust_spec_witness :
    exhaust tryAddBoom true 0 = (2, "boom")
    ∧ (exhaust tryAddBoom false 5).1 ≤ 5 := by
  refine ⟨?_, (exhaust_spec tryAddBoom 5).1⟩
  exact (exhaust_spec tryAddBoom 0).2 2 "boom" (by norm_num [exhaustBound]) rfl
    (fun j hj => by interval_cases j <;> rfl)

/-- C5 counterexample: rekeying the SA brought up at SPI 0x2000 produces
policies with reqid 0x2001 while the pre-rekey policies carried reqid 0x2000,
so the linkage identifier is not preserved. -/
theorem rekey_ce :
    (rekey_sa "10.0.0.1" "10.0.0.2" "transport" 8192 "newkey").newPolicyOut.reqid
      ≠ (bring_up_sa "10.0.0.1" "10.0.0.2" "transport" 8192 "key").2.1.reqid := by
  decide

/-- C5 amended: rekey deletes the old association by its identifier, creates
the new configuration with the successor identifier spi + 1 and fresh key
material, and preserves the selectors (source, destination, direction, mode);
the linkage identifier is not preserved: it is recomputed as
(spi + 1) & 0xffff, which always differs from the old spi & 0xffff. -/
theorem rekey_amended (localIp remoteIp mode key : String) (spi : Nat) :
    (rekey_sa localIp remoteIp mode spi key).deletedSpi = spi
    ∧ (rekey_sa localIp remoteIp mode spi key).newState.spi = spi + 1
    ∧ (rekey_sa localIp remoteIp mode spi key).newState.src = localIp
    ∧ (rekey_sa localIp remoteIp mode spi key).newState.dst = remoteIp
    ∧ (rekey_sa localIp remoteIp mode spi key).newState.mode = mode
    ∧ (rekey_sa localIp remoteIp mode spi key).newState.key = key
    ∧ (rekey_sa localIp remoteIp mode spi key).newPolicyOut =
        ⟨localIp, remoteIp, "out", mode, (spi + 1) % 65536⟩
    ∧ (rekey_sa localIp remoteIp mode spi key).newPolicyIn =
        ⟨remoteIp, localIp, "in", mode, (spi + 1) % 65536⟩
    ∧ (spi + 1) % 65536 ≠ spi % 65536 := by
  refine ⟨rfl, rfl, rfl, rfl, rfl, rfl, rfl, rfl, ?_⟩
  omega

/-- C6 counterexample: in sa_resource_exhaustion_linux.flush_all the
underlying flushes run with the default check=True, so a failing state flush
raises CalledProcessError to the caller instead of being swallowed. -/
theorem flush_all_propagates_ce :
    flush_all true false = Except.error "CalledProcessError" := rfl

/-- C6 amended: best-effort swallowing holds for IPSecTesting.ip_xfrm_flush
(both flushes run with check=False and never raise), while
sa_resource_exhaustion_linux.flush_all propagates an underlying flush failure
to the caller: it returns normally iff neither flush fails. -/
theorem flush_behavior_amended (stateFails policyFails : Bool) :
    ip_xfrm_flush stateFails policyFails = Except.ok ()
    ∧ (flush_all stateFails policyFails = Except.ok () ↔
        (stateFails = false ∧ policyFails = false)) := by
  cases stateFails <;> cases policyFails <;>
    simp [ip_xfrm_flush, flush_all, run_sub]

/-- C7: running exhaustion with policies enabled in tunnel mode without local
and remote subnets exits with the configuration error before exhaust runs:
the result is the configuration error for every pair-creation function, so no
association is created and the store is still empty. -/
theorem tunnel_without_subnets_config_error (tryAdd : Nat → Except String Unit)
    (untilFail : Bool) :
    exhaust_main "tunnel" true none none tryAdd untilFail 50
      = ExhaustMainResult.configError
          "--local-subnet and --remote-subnet required for tunnel mode with policies." := by
  rfl

/-- C8: apply_targeted_netem first clears any existing shaping configuration
(the result does not depend on the prior well-formed state), then installs a
prio root, one netem class at 1:3, and exactly two symmetric match rules —
one for traffic destined to the target and one for traffic sourced from it —
both classifying into 1:3, so a packet is degraded iff its destination or its
source is the target address. -/
theorem apply_targeted_netem_spec (s : TcState) (target : String)
    (lossPct delayMs reorderPct : ℚ)
    (hwf : s.rootQdisc = none → s = TcState.emptyTc) :
    apply_targeted_netem target lossPct delayMs reorderPct s
      = apply_targeted_netem target lossPct delayMs reorderPct TcState.emptyTc
    ∧ (apply_targeted_netem target lossPct delayMs reorderPct s).rootQdisc
        = some "prio"
    ∧ (apply_targeted_netem target lossPct delayMs reorderPct s).childNetem
        = some ("1:3", ⟨lossPct, delayMs, reorderPct⟩)
    ∧ (apply_targeted_netem target lossPct delayMs reorderPct s).filters
        = [⟨MatchKey.dst, target, "1:3"⟩, ⟨MatchKey.src, target, "1:3"⟩]
    ∧ (∀ psrc pdst,
        packetDegraded (apply_targeted_netem target lossPct delayMs reorderPct s)
          psrc pdst = ((pdst == target) || (psrc == target))) := by
  have hdel : tc_qdisc_del_root s = TcState.emptyTc := by
    rcases hroot : s.rootQdisc with _ | q
    · have h1 : tc_qdisc_del_root s = s := by
        simp [tc_qdisc_del_root, hroot]
      rw [h1, hwf hroot]
    · simp [tc_qdisc_del_root, hroot]
  refine ⟨?_, ?_, ?_, ?_, ?_⟩
  · simp only [apply_targeted_netem]
    rw [hdel]
    rfl
  · simp [apply_targeted_netem, hdel, tc_filter_add, tc_qdisc_add_netem,
      tc_qdisc_add_root_prio, TcState.emptyTc]
  · simp [apply_targeted_netem, hdel, tc_filter_add, tc_qdisc_add_netem,
      tc_qdisc_add_root_prio, TcState.emptyTc]
  · simp [apply_targeted_netem, hdel, tc_filter_add, tc_qdisc_add_netem,
      tc_qdisc_add_root_prio, TcState.emptyTc]
  · intro psrc pdst
    simp [apply_targeted_netem, hdel, tc_filter_add, tc_qdisc_add_netem,
      tc_qdisc_add_root_prio, TcState.emptyTc, packetDegraded, filterMatches]

/-- C8 witness: applying the spec's scoped profile (loss 2%, delay 10ms,
reorder 10%) for peer 10.0.0.2 on an interface with a stale root qdisc and a
stale filter installs exactly the two symmetric match rules, degrades a
packet destined to the peer, and leaves a packet unrelated to the peer
unaffected. -/
theorem apply_targeted_netem_spec_witness :
    (apply_targeted_netem "10.0.0.2" 2 10 10 tcS0).filters
      = [⟨MatchKey.dst, "10.0.0.2", "1:3"⟩, ⟨MatchKey.src, "10.0.0.2", "1:3"⟩]
    ∧ packetDegraded (apply_targeted_netem "10.0.0.2" 2 10 10 tcS0)
        "10.0.0.9" "10.0.0.2" = true
    ∧ packetDegraded (apply_targeted_netem "10.0.0.2" 2 10 10 tcS0)
        "10.0.0.9" "10.0.0.8" = false := by
  have h := apply_targeted_netem_spec tcS0 "10.0.0.2" 2 10 10 (by decide)
  refine ⟨h.2.2.2.1, ?_, ?_⟩
  · rw [h.2.2.2.2 "10.0.0.9" "10.0.0.2"]; decide
  · rw [h.2.2.2.2 "10.0.0.9" "10.0.0.8"]; decide

/-- C9: clear_tc never raises (it always returns the cleared state because
the root delete runs with check=False), deleting the root twice yields the
same observable shaping state as deleting it once, and clear on an interface
with no impairment applied is a safe no-op. -/
theorem clear_tc_spec (s : TcState) :
    clear_tc s = Except.ok (tc_qdisc_del_root s)
    ∧ tc_qdisc_del_root (tc_qdisc_del_root s) = tc_qdisc_del_root s
    ∧ clear_tc TcState.emptyTc = Except.ok TcState.emptyTc := by
  refine ⟨rfl, ?_, rfl⟩
  rcases hroot : s.rootQdisc with _ | q
  · simp [tc_qdisc_del_root, hroot]
  · simp [tc_qdisc_del_root, hroot, TcState.emptyTc]

/-- C10: exhaust with until_fail disabled and a cap of 0 performs zero
iterations and returns createdCount = 0 with an empty lastError, for every
pair-creation function; the 1_000_000_000 unbounded interpretation of cap 0
applies only when until_fail is enabled. -/
theorem exhaust_zero_cap_spec (tryAdd : Nat → Except String Unit) :
    exhaust tryAdd false 0 = (0, "")
    ∧ exhaustBound false 0 = 0
    ∧ exhaustBound true 0 = 1000000000 :=
  ⟨rfl, rfl, rfl⟩

end Spec2Proof
